import Mathlib

/-
Shallow embedding of the event-extraction-and-invite-generation pipeline of
src/Code.js (a Google Apps Script).  JavaScript values flowing through the
pipeline are modelled by the type Json (the possible results of JSON.parse);
Option Json models a possibly-undefined value, with none standing for
undefined.  JavaScript numbers are modelled as exact rationals: the
double-precision rounding of JavaScript arithmetic is not modelled, and no
claim depends on it.
-/

/-- A JavaScript value as produced by JSON.parse. -/
inductive Json where
  | null : Json
  | bool : Bool → Json
  | num : Rat → Json
  | str : String → Json
  | arr : List Json → Json
  | obj : List (String × Json) → Json

/-- JavaScript truthiness of a value, with none standing for undefined. -/
def truthy : Option Json → Bool
  | none => false
  | some .null => false
  | some (.bool b) => b
  | some (.num q) => decide (q ≠ 0)
  | some (.str s) => decide (s ≠ "")
  | some (.arr _) => true
  | some (.obj _) => true

/-- Property lookup on the field list of a parsed JSON object; with duplicate
    keys JSON.parse keeps the last occurrence, hence the fold. -/
def lookupField (fs : List (String × Json)) (k : String) : Option Json :=
  fs.foldl (fun acc p => if p.1 = k then some p.2 else acc) none

/-- JavaScript property access on a parsed value, for the keys used by this
    script: on an object it is field lookup, on the other non-null values the
    keys used here are all absent (undefined).  Access on null throws; that
    case is handled by getFieldE. -/
def getProp : Json → String → Option Json
  | .obj fs, k => lookupField fs k
  | _, _ => none

/-- The distinct failure causes of the pipeline: a SyntaxError from JSON.parse,
    the two Error throws of the script, and a JavaScript TypeError. -/
inductive JsError where
  | malformedJson : JsError
  | missingField : String → JsError
  | missingEventData : JsError
  | typeError : JsError
  deriving DecidableEq

/-- Property access as an operation that can throw: reading a property of null
    raises a TypeError. -/
def getFieldE : Json → String → Except JsError (Option Json)
  | .null, _ => .error .typeError
  | ev, k => .ok (getProp ev k)

/- The JSON grammar accepted by JSON.parse, as a fuel-based recursive-descent
   reader.  A \uXXXX escape pair outside the Basic Multilingual Plane is
   combined; a lone surrogate, which a JavaScript string could hold but a Lean
   string cannot, is replaced by U+FFFD.  No claim exercises that corner. -/

def isJsonWs (c : Char) : Bool := c = ' ' || c = '\t' || c = '\n' || c = '\r'

def skipWs : List Char → List Char
  | [] => []
  | c :: rest => if isJsonWs c then skipWs rest else c :: rest

def hexVal (c : Char) : Option Nat :=
  if '0' ≤ c && c ≤ '9' then some (c.toNat - 48)
  else if 'a' ≤ c && c ≤ 'f' then some (c.toNat - 87)
  else if 'A' ≤ c && c ≤ 'F' then some (c.toNat - 55)
  else none

def parseStrBody (fuel : Nat) (acc : List Char) (cs : List Char) :
    Option (String × List Char) :=
  match fuel, cs with
  | 0, _ => none
  | _ + 1, [] => none
  | fuel + 1, c :: rest =>
    if c = '"' then some (String.mk acc.reverse, rest)
    else if c = '\\' then
      match rest with
      | [] => none
      | e :: rest1 =>
        if e = '"' || e = '\\' || e = '/' then parseStrBody fuel (e :: acc) rest1
        else if e = 'b' then parseStrBody fuel ('\x08' :: acc) rest1
        else if e = 'f' then parseStrBody fuel ('\x0c' :: acc) rest1
        else if e = 'n' then parseStrBody fuel ('\n' :: acc) rest1
        else if e = 'r' then parseStrBody fuel ('\r' :: acc) rest1
        else if e = 't' then parseStrBody fuel ('\t' :: acc) rest1
        else if e = 'u' then
          match rest1 with
          | h1 :: h2 :: h3 :: h4 :: rest2 =>
            match hexVal h1, hexVal h2, hexVal h3, hexVal h4 with
            | some a, some b, some c1, some d =>
              let code := ((a * 16 + b) * 16 + c1) * 16 + d
              if 0xD800 ≤ code && code ≤ 0xDBFF then
                match rest2 with
                | '\\' :: 'u' :: g1 :: g2 :: g3 :: g4 :: rest3 =>
                  match hexVal g1, hexVal g2, hexVal g3, hexVal g4 with
                  | some a2, some b2, some c2, some d2 =>
                    let lo := ((a2 * 16 + b2) * 16 + c2) * 16 + d2
                    if 0xDC00 ≤ lo && lo ≤ 0xDFFF then
                      parseStrBody fuel
                        (Char.ofNat (0x10000 + (code - 0xD800) * 0x400 + (lo - 0xDC00)) :: acc)
                        rest3
                    else parseStrBody fuel (Char.ofNat 0xFFFD :: acc) rest2
                  | _, _, _, _ => parseStrBody fuel (Char.ofNat 0xFFFD :: acc) rest2
                | _ => parseStrBody fuel (Char.ofNat 0xFFFD :: acc) rest2
              else if 0xDC00 ≤ code && code ≤ 0xDFFF then
                parseStrBody fuel (Char.ofNat 0xFFFD :: acc) rest2
              else parseStrBody fuel (Char.ofNat code :: acc) rest2
            | _, _, _, _ => none
          | _ => none
        else none
    else if c.toNat < 0x20 then none
    else parseStrBody fuel (c :: acc) rest

def digitsToNat (ds : List Char) : Nat :=
  ds.foldl (fun a c => a * 10 + (c.toNat - 48)) 0

/-- The JSON number grammar: optional minus, an integer part in which a
    leading zero must stand alone, an optional fraction, an optional
    exponent.  The value is kept as an exact rational. -/
def parseNumber (cs : List Char) : Option (Rat × List Char) :=
  let (neg, cs1) : Bool × List Char :=
    match cs with
    | '-' :: r => (true, r)
    | _ => (false, cs)
  match cs1 with
  | [] => none
  | c :: tail =>
    if ¬ c.isDigit then none
    else
      let (ids, cs2) : List Char × List Char :=
        if c = '0' then ([c], tail)
        else (cs1.takeWhile Char.isDigit, cs1.dropWhile Char.isDigit)
      let fracPresent : Bool := match cs2 with | '.' :: _ => true | _ => false
      let (fds, cs3) : List Char × List Char :=
        match cs2 with
        | '.' :: r => (r.takeWhile Char.isDigit, r.dropWhile Char.isDigit)
        | _ => ([], cs2)
      if fracPresent && fds.isEmpty then none
      else
        let (expPresent, esign, eds, cs4) : Bool × Int × List Char × List Char :=
          match cs3 with
          | 'e' :: r | 'E' :: r =>
            match r with
            | '+' :: rr => (true, 1, rr.takeWhile Char.isDigit, rr.dropWhile Char.isDigit)
            | '-' :: rr => (true, -1, rr.takeWhile Char.isDigit, rr.dropWhile Char.isDigit)
            | _ => (true, 1, r.takeWhile Char.isDigit, r.dropWhile Char.isDigit)
          | _ => (false, 1, [], cs3)
        if expPresent && eds.isEmpty then none
        else
          let mantissa : Int :=
            (if neg then -1 else 1) *
              ((digitsToNat ids * 10 ^ fds.length + digitsToNat fds : Nat) : Int)
          let e10 : Int := esign * (digitsToNat eds : Int) - (fds.length : Int)
          let q : Rat :=
            if 0 ≤ e10 then (mantissa : Rat) * ((10 : Rat) ^ e10.toNat)
            else mkRat mantissa (10 ^ (-e10).toNat)
          some (q, cs4)

mutual

def parseValue : Nat → List Char → Option (Json × List Char)
  | 0, _ => none
  | fuel + 1, cs =>
    match cs with
    | [] => none
    | '"' :: rest =>
      match parseStrBody fuel [] rest with
      | some (s, rest2) => some (.str s, rest2)
      | none => none
    | 't' :: 'r' :: 'u' :: 'e' :: rest => some (.bool true, rest)
    | 'f' :: 'a' :: 'l' :: 's' :: 'e' :: rest => some (.bool false, rest)
    | 'n' :: 'u' :: 'l' :: 'l' :: rest => some (.null, rest)
    | '\x7b' :: rest =>
      match skipWs rest with
      | '\x7d' :: rest2 => some (.obj [], rest2)
      | rest2 =>
        match parseObjMembers fuel rest2 with
        | some (fs, rest3) => some (.obj fs, rest3)
        | none => none
    | '[' :: rest =>
      match skipWs rest with
      | ']' :: rest2 => some (.arr [], rest2)
      | rest2 =>
        match parseArrayItems fuel rest2 with
        | some (xs, rest3) => some (.arr xs, rest3)
        | none => none
    | c :: _ =>
      if c = '-' || c.isDigit then
        match parseNumber cs with
        | some (q, rest2) => some (.num q, rest2)
        | none => none
      else none

def parseObjMembers : Nat → List Char → Option (List (String × Json) × List Char)
  | 0, _ => none
  | fuel + 1, cs =>
    match cs with
    | '"' :: rest =>
      match parseStrBody fuel [] rest with
      | some (k, rest2) =>
        match skipWs rest2 with
        | ':' :: rest3 =>
          match parseValue fuel (skipWs rest3) with
          | some (v, rest4) =>
            match skipWs rest4 with
            | ',' :: rest5 =>
              match parseObjMembers fuel (skipWs rest5) with
              | some (fs, rest6) => some ((k, v) :: fs, rest6)
              | none => none
            | '\x7d' :: rest5 => some ([(k, v)], rest5)
            | _ => none
          | none => none
        | _ => none
      | none => none
    | _ => none

def parseArrayItems : Nat → List Char → Option (List Json × List Char)
  | 0, _ => none
  | fuel + 1, cs =>
    match parseValue fuel cs with
    | some (v, rest) =>
      match skipWs rest with
      | ',' :: rest2 =>
        match parseArrayItems fuel (skipWs rest2) with
        | some (xs, rest3) => some (v :: xs, rest3)
        | none => none
      | ']' :: rest2 => some ([v], rest2)
      | _ => none
    | none => none

end

/-- JSON.parse as used on the model response: parse one value surrounded by
    optional whitespace, requiring the whole input to be consumed; none
    models the thrown SyntaxError. -/
def parseJson (s : String) : Option Json :=
  match parseValue (s.length + 2) (skipWs s.data) with
  | some (v, rest) => if skipWs rest = [] then some v else none
  | none => none

/- The response-validation step of openAiApiCall (src/Code.js lines 140-153). -/

def requiredFields : List String := ["event_title", "datetime_start", "datetime_end"]

/-- The required-field loop of openAiApiCall: for each field in order, throw
    a missing-field Error when the property is falsy. -/
def checkFields : List String → Json → Except JsError Unit
  | [], _ => .ok ()
  | f :: rest, ev =>
    match getFieldE ev f with
    | .error e => .error e
    | .ok v => if truthy v then checkFields rest ev else .error (.missingField f)

/-- openAiApiCall, from the point where the model text is in hand (src/Code.js
    lines 140-153): JSON.parse of the response text, then the required-field
    loop; the parsed value itself is returned, unchanged. -/
def validateExtraction (rawModelText : String) : Except JsError Json :=
  match parseJson rawModelText with
  | none => .error .malformedJson
  | some eventData =>
    match checkFields requiredFields eventData with
    | .error e => .error e
    | .ok _ => .ok eventData

/- createICSFile (src/Code.js lines 172-201) and the final formatting step of
   sendResponse (line 239). -/

def escapePass1 : List Char → List Char
  | [] => []
  | c :: rest =>
    if c = '\\' || c = ';' || c = ',' then '\\' :: c :: escapePass1 rest
    else c :: escapePass1 rest

def escapePass2 : List Char → List Char
  | [] => []
  | c :: rest =>
    if c = '\n' then '\\' :: 'n' :: escapePass2 rest
    else c :: escapePass2 rest

/-- The two global replacements of the escapeText closure, in source order:
    first each backslash, semicolon or comma is prefixed with a backslash,
    then each newline is replaced by the two characters backslash n. -/
def escapeString (s : String) : String := String.mk (escapePass2 (escapePass1 s.data))

/-- The escapeText closure of createICSFile: a falsy argument yields the empty
    string; a truthy string is escaped; a truthy non-string value has no
    replace method, so JavaScript throws a TypeError. -/
def escapeText (text : Option Json) : Except JsError String :=
  if truthy text then
    match text with
    | some (.str s) => .ok (escapeString s)
    | _ => .error .typeError
  else .ok ""

/-- JavaScript number-to-string for the values reachable here: integral
    values print as in JavaScript; the printing of non-integral rationals is
    an approximation of double formatting, and no claim exercises it. -/
def ratToJsString (q : Rat) : String :=
  if q.den = 1 then toString q.num else toString q

mutual

/-- JavaScript ToString, as applied by the template literals of
    createICSFile to an interpolated value. -/
def jsToString : Json → String
  | .null => "null"
  | .bool true => "true"
  | .bool false => "false"
  | .num q => ratToJsString q
  | .str s => s
  | .arr xs => jsArrToString xs
  | .obj _ => "[object Object]"

/-- Array.prototype.toString: elements joined by commas, null elements
    rendering as empty. -/
def jsArrToString : List Json → String
  | [] => ""
  | [.null] => ""
  | [x] => jsToString x
  | .null :: rest => "," ++ jsArrToString rest
  | x :: rest => jsToString x ++ "," ++ jsArrToString rest

end

def jsToStrOpt : Option Json → String
  | none => "undefined"
  | some v => jsToString v

/-- JavaScript Boolean coercion on strings, as used by filter(Boolean):
    only the empty string is falsy. -/
def strBoolean (s : String) : Bool := decide (s.length ≠ 0)

/-- Array.prototype.join with separator CRLF. -/
def joinCRLF : List String → String
  | [] => ""
  | [x] => x
  | x :: rest => x ++ "\r\n" ++ joinCRLF rest

/-- createICSFile (src/Code.js lines 172-201): check the three required
    properties for truthiness, then assemble the line array, drop falsy
    entries, and join with CRLF.  No trailing CRLF is appended here. -/
def createICSFile (eventData : Json) : Except JsError String :=
  match getFieldE eventData "datetime_start" with
  | .error e => .error e
  | .ok ds =>
  match getFieldE eventData "datetime_end" with
  | .error e => .error e
  | .ok de =>
  match getFieldE eventData "event_title" with
  | .error e => .error e
  | .ok ti =>
  if !truthy ds || !truthy de || !truthy ti then .error .missingEventData
  else
  match escapeText ti with
  | .error e => .error e
  | .ok summaryEsc =>
  match getFieldE eventData "location" with
  | .error e => .error e
  | .ok loc =>
  match (if truthy loc then
           match escapeText loc with
           | .error e => .error e
           | .ok l => .ok ("LOCATION:" ++ l)
         else (.ok "" : Except JsError String)) with
  | .error e => .error e
  | .ok locEntry =>
    .ok (joinCRLF (List.filter strBoolean
      ["BEGIN:VCALENDAR", "VERSION:2.0", "BEGIN:VEVENT",
       "SUMMARY:" ++ summaryEsc,
       "DTSTART:" ++ jsToStrOpt ds,
       "DTEND:" ++ jsToStrOpt de,
       locEntry,
       "END:VEVENT", "END:VCALENDAR"]))

/-- The WhiteSpace and LineTerminator characters stripped by the trim method
    of JavaScript strings. -/
def isJsTrimWs (c : Char) : Bool :=
  c = '\t' || c = '\n' || c = '\u000b' || c = '\u000c' || c = '\r' || c = ' ' ||
  c = '\u00a0' || c = '\ufeff' || c = '\u1680' ||
  ('\u2000' ≤ c && c ≤ '\u200a') || c = '\u2028' || c = '\u2029' ||
  c = '\u202f' || c = '\u205f' || c = '\u3000'

/-- The trim method of JavaScript strings: leading and trailing whitespace
    removed. -/
def jsTrim (s : String) : String :=
  String.mk (((s.data.dropWhile isJsTrimWs).reverse.dropWhile isJsTrimWs).reverse)

/-- Line 239 of src/Code.js, in sendResponse: the document actually attached
    is the generated content trimmed and terminated with one CRLF. -/
def sendResponseICS (icsContent : String) : String := jsTrim icsContent ++ "\r\n"

/- formatDate and formatTime (src/Code.js lines 283-308). -/

/-- The slice method of JavaScript strings for non-negative arguments. -/
def sliceStr (s : String) (a b : Nat) : String := String.mk ((s.data.drop a).take (b - a))

def digitsPrefixVal (cs : List Char) : Option Nat :=
  let ds := cs.takeWhile Char.isDigit
  if ds.isEmpty then none else some (digitsToNat ds)

/-- parseInt with radix 10: leading whitespace, an optional sign, then the
    maximal digit prefix; none models NaN, returned when no digit follows. -/
def parseIntJs (s : String) : Option Int :=
  match skipWs s.data with
  | [] => none
  | c :: rest =>
    if c = '-' then (digitsPrefixVal rest).map (fun n => -(n : Int))
    else if c = '+' then (digitsPrefixVal rest).map (fun n => (n : Int))
    else (digitsPrefixVal (c :: rest)).map (fun n => (n : Int))

def monthNames : List String :=
  ["January", "February", "March", "April", "May", "June",
   "July", "August", "September", "October", "November", "December"]

/-- formatDate (src/Code.js lines 283-302).  A NaN day renders as the string
    NaN with suffix th, since every NaN comparison is false; a month index
    outside the array bounds renders as the string undefined, exactly as the
    JavaScript template literal would render it.  The truncating remainder
    tmod matches the JavaScript remainder operator. -/
def formatDate (dateTime : String) : String :=
  let year := sliceStr dateTime 0 4
  let month := sliceStr dateTime 4 6
  let dayOpt := parseIntJs (sliceStr dateTime 6 8)
  let dayStr := match dayOpt with
    | some d => toString d
    | none => "NaN"
  let suffix := match dayOpt with
    | some d =>
      if d.tmod 10 = 1 ∧ d ≠ 11 then "st"
      else if d.tmod 10 = 2 ∧ d ≠ 12 then "nd"
      else if d.tmod 10 = 3 ∧ d ≠ 13 then "rd"
      else "th"
    | none => "th"
  let monthStr := match parseIntJs month with
    | some m =>
      if 1 ≤ m ∧ m ≤ 12 then monthNames.getD (m - 1).toNat "undefined" else "undefined"
    | none => "undefined"
  dayStr ++ suffix ++ " " ++ monthStr ++ " " ++ year

/-- formatTime (src/Code.js lines 304-308). -/
def formatTime (dateTime : String) : String :=
  sliceStr dateTime 9 11 ++ ":" ++ sliceStr dateTime 11 13

/-- The inverse unescaping rule stated by the specification: a backslash
    followed by the letter n denotes a newline, a backslash followed by any
    other character denotes that character itself. -/
def unescapeChars : List Char → List Char
  | [] => []
  | [c] => [c]
  | c :: d :: rest =>
    if c = '\\' then (if d = 'n' then '\n' else d) :: unescapeChars rest
    else c :: unescapeChars (d :: rest)

def unescapeString (s : String) : String := String.mk (unescapeChars s.data)

/- Helper lemmas shared by the claim theorems. -/

theorem strDataExt (a b : String) (h : a.data = b.data) : a = b :=
  congrArg String.mk h

theorem strLen (s : String) : s.length = s.data.length := rfl

@[simp] theorem strDataAppend (a b : String) : (a ++ b).data = a.data ++ b.data := rfl

theorem strBoolean_append (p x : String) (h : p.data.length ≠ 0) :
    strBoolean (p ++ x) = true := by
  simp only [strBoolean, decide_eq_true_eq, strLen]
  show (p.data ++ x.data).length ≠ 0
  simp only [List.length_append]
  omega

theorem truthy_str_ne (x : String) (h : x ≠ "") : truthy (some (.str x)) = true := by
  simp [truthy, h]

theorem checkFields_obj_cons (f : String) (rest : List String) (fs : List (String × Json)) :
    checkFields (f :: rest) (.obj fs) =
      if truthy (lookupField fs f) then checkFields rest (.obj fs)
      else .error (.missingField f) := rfl

theorem checkFields_nil (ev : Json) : checkFields [] ev = .ok () := rfl

theorem checkFields_ok (fs : List (String × Json))
    (h1 : truthy (lookupField fs "event_title") = true)
    (h2 : truthy (lookupField fs "datetime_start") = true)
    (h3 : truthy (lookupField fs "datetime_end") = true) :
    checkFields requiredFields (.obj fs) = .ok () := by
  show checkFields ["event_title", "datetime_start", "datetime_end"] (.obj fs) = .ok ()
  rw [checkFields_obj_cons, if_pos h1, checkFields_obj_cons, if_pos h2,
    checkFields_obj_cons, if_pos h3, checkFields_nil]

theorem checkFields_falsy_first (fs : List (String × Json)) (f : String)
    (hf : f ∈ requiredFields)
    (hfalsy : truthy (lookupField fs f) = false)
    (hothers : ∀ g ∈ requiredFields, g ≠ f → truthy (lookupField fs g) = true) :
    checkFields requiredFields (.obj fs) = .error (.missingField f) := by
  have hmem : f = "event_title" ∨ f = "datetime_start" ∨ f = "datetime_end" := by
    simpa [requiredFields] using hf
  rcases hmem with h | h | h <;> subst h
  · simp [requiredFields, checkFields_obj_cons, hfalsy]
  · have h1 := hothers "event_title" (by simp [requiredFields]) (by decide)
    simp [requiredFields, checkFields_obj_cons, h1, hfalsy]
  · have h1 := hothers "event_title" (by simp [requiredFields]) (by decide)
    have h2 := hothers "datetime_start" (by simp [requiredFields]) (by decide)
    simp [requiredFields, checkFields_obj_cons, h1, h2, hfalsy]

theorem validate_ok (raw : String) (fs : List (String × Json))
    (hparse : parseJson raw = some (.obj fs))
    (h1 : truthy (lookupField fs "event_title") = true)
    (h2 : truthy (lookupField fs "datetime_start") = true)
    (h3 : truthy (lookupField fs "datetime_end") = true) :
    validateExtraction raw = .ok (.obj fs) := by
  have hc := checkFields_ok fs h1 h2 h3
  simp [validateExtraction, hparse, hc]

theorem unescapeChars_cons_ne (c : Char) (X : List Char) (h : c ≠ '\\') :
    unescapeChars (c :: X) = c :: unescapeChars X := by
  cases X with
  | nil => rfl
  | cons d X => simp [unescapeChars, h]

theorem unescape_escapeChars (cs : List Char) :
    unescapeChars (escapePass2 (escapePass1 cs)) = cs := by
  induction cs with
  | nil => rfl
  | cons c rest ih =>
    by_cases hb : c = '\\'
    · subst hb
      simp [escapePass1, escapePass2, unescapeChars, ih]
    · by_cases hs : c = ';'
      · subst hs
        simp [escapePass1, escapePass2, unescapeChars, ih]
      · by_cases hc : c = ','
        · subst hc
          simp [escapePass1, escapePass2, unescapeChars, ih]
        · by_cases hn : c = '\n'
          · subst hn
            simp [escapePass1, escapePass2, unescapeChars, ih]
          · rw [show escapePass1 (c :: rest) = c :: escapePass1 rest from by
                simp [escapePass1, hb, hs, hc],
              show escapePass2 (c :: escapePass1 rest) = c :: escapePass2 (escapePass1 rest)
                from by simp [escapePass2, hn],
              unescapeChars_cons_ne c _ hb, ih]

/-- Claim C2: the escaping applied by the invite generator to title and
    location text (backslash, semicolon and comma each prefixed with a
    backslash, then each newline replaced by backslash n, in that order) is
    invertible: the inverse unescaping rule applied to the escaped text
    reconstructs the original string exactly. -/
theorem escape_roundtrip (s : String)
    (hres : s.data.any (fun c => c = '\\' || c = ';' || c = ',' || c = '\n') = true) :
    escapeText (some (.str s)) = .ok (escapeString s) ∧
    unescapeString (escapeString s) = s := by
  constructor
  · have hne : s ≠ "" := by
      intro e
      subst e
      simp at hres
    simp [escapeText, truthy, hne]
  · exact congrArg String.mk (unescape_escapeChars s.data)

/-- Claim C2 witness at a concrete string holding all four reserved
    characters. -/
theorem escape_roundtrip_witness :
    escapeText (some (.str "a\\b;c,d\ne")) = .ok (escapeString "a\\b;c,d\ne") ∧
    unescapeString (escapeString "a\\b;c,d\ne") = "a\\b;c,d\ne" :=
  escape_roundtrip "a\\b;c,d\ne" (by decide)

/-- Claim C3: for each of the three required fields individually, if the
    parsed model response lacks the field, or has it null, or has it as the
    empty string, while the other two are present and non-empty, the
    required-field check of openAiApiCall fails with the missing-field error
    naming that field. -/
theorem validator_missing_required_field (fs : List (String × Json)) (f : String)
    (hf : f ∈ requiredFields)
    (hmiss : lookupField fs f = none ∨ lookupField fs f = some .null ∨
             lookupField fs f = some (.str ""))
    (hothers : ∀ g ∈ requiredFields, g ≠ f → truthy (lookupField fs g) = true) :
    checkFields requiredFields (.obj fs) = .error (.missingField f) := by
  apply checkFields_falsy_first fs f hf _ hothers
  rcases hmiss with h | h | h <;> simp [h, truthy]

/-- Claim C3 witness: datetime_start absent while the other two fields are
    present and non-empty. -/
theorem validator_missing_required_field_witness :
    checkFields requiredFields
      (.obj [("event_title", .str "Team Sync"), ("datetime_end", .str "20250314T100000")]) =
      .error (.missingField "datetime_start") :=
  validator_missing_required_field _ "datetime_start" (by decide) (Or.inl rfl) (by decide)

/-- Claim C4: every model-response string that JSON.parse rejects makes
    openAiApiCall fail with the malformed-JSON error instead of returning a
    record. -/
theorem validator_malformed_json (raw : String) (h : parseJson raw = none) :
    validateExtraction raw = .error .malformedJson := by
  simp [validateExtraction, h]

/-- Claim C4 witness: plain prose and a markdown-fenced JSON object are both
    rejected as malformed. -/
theorem validator_malformed_json_witness :
    validateExtraction "not json" = .error .malformedJson ∧
    validateExtraction "```json\n\x7b\"event_title\": \"Team Sync\"\x7d\n```" =
      .error .malformedJson :=
  ⟨validator_malformed_json _ rfl, validator_malformed_json _ rfl⟩

/-- Claim C9 (implicit): the required-field check is a truthiness test, not a
    string test.  Any truthy value of any type counts as present and
    non-empty, and the falsy non-null non-string values number 0 and boolean
    false are rejected with the missing-field error; no string check exists. -/
theorem validator_truthiness :
    (∀ fs : List (String × Json),
        truthy (lookupField fs "event_title") = true →
        truthy (lookupField fs "datetime_start") = true →
        truthy (lookupField fs "datetime_end") = true →
        checkFields requiredFields (.obj fs) = .ok ()) ∧
    (∀ (fs : List (String × Json)) (f : String), f ∈ requiredFields →
        (lookupField fs f = some (.num 0) ∨ lookupField fs f = some (.bool false)) →
        (∀ g ∈ requiredFields, g ≠ f → truthy (lookupField fs g) = true) →
        checkFields requiredFields (.obj fs) = .error (.missingField f)) := by
  constructor
  · intro fs h1 h2 h3
    exact checkFields_ok fs h1 h2 h3
  · intro fs f hf hv hothers
    apply checkFields_falsy_first fs f hf _ hothers
    rcases hv with h | h <;> simp [h, truthy]

/-- Claim C9 witness: a number, an object and an array are accepted as the
    three required fields, while the number 0 is rejected as missing. -/
theorem validator_truthiness_witness :
    checkFields requiredFields
      (.obj [("event_title", .num 42), ("datetime_start", .obj []),
             ("datetime_end", .arr [.bool true])]) = .ok () ∧
    checkFields requiredFields
      (.obj [("event_title", .str "T"), ("datetime_start", .num 0),
             ("datetime_end", .str "e")]) = .error (.missingField "datetime_start") :=
  ⟨validator_truthiness.1 _ rfl rfl rfl,
   validator_truthiness.2 _ "datetime_start" (by decide) (Or.inl rfl) (by decide)⟩

theorem createICS_eval_noloc (fs : List (String × Json)) (t s e : String)
    (ht : lookupField fs "event_title" = some (.str t)) (ht' : t ≠ "")
    (hs : lookupField fs "datetime_start" = some (.str s)) (hs' : s ≠ "")
    (he : lookupField fs "datetime_end" = some (.str e)) (he' : e ≠ "")
    (hloc : truthy (lookupField fs "location") = false) :
    createICSFile (.obj fs) =
      .ok ("BEGIN:VCALENDAR\r\nVERSION:2.0\r\nBEGIN:VEVENT\r\nSUMMARY:" ++ escapeString t ++
           "\r\nDTSTART:" ++ s ++ "\r\nDTEND:" ++ e ++ "\r\nEND:VEVENT\r\nEND:VCALENDAR") := by
  have ge : ∀ k : String, getFieldE (.obj fs) k = .ok (lookupField fs k) := fun k => rfl
  have htr1 := truthy_str_ne t ht'
  have htr2 := truthy_str_ne s hs'
  have htr3 := truthy_str_ne e he'
  simp only [createICSFile, ge, ht, hs, he, hloc, htr1, htr2, htr3, Bool.not_true,
    Bool.false_or, Bool.or_false, Bool.or_self, if_false, Bool.false_eq_true, ite_false,
    escapeText, truthy_str_ne t ht', ite_true, jsToStrOpt, jsToString]
  have fSum : strBoolean ("SUMMARY:" ++ escapeString t) = true := strBoolean_append _ _ (by decide)
  have fDs : strBoolean ("DTSTART:" ++ s) = true := strBoolean_append _ _ (by decide)
  have fDe : strBoolean ("DTEND:" ++ e) = true := strBoolean_append _ _ (by decide)
  rw [show List.filter strBoolean
        ["BEGIN:VCALENDAR", "VERSION:2.0", "BEGIN:VEVENT", "SUMMARY:" ++ escapeString t,
         "DTSTART:" ++ s, "DTEND:" ++ e, "", "END:VEVENT", "END:VCALENDAR"] =
        ["BEGIN:VCALENDAR", "VERSION:2.0", "BEGIN:VEVENT", "SUMMARY:" ++ escapeString t,
         "DTSTART:" ++ s, "DTEND:" ++ e, "END:VEVENT", "END:VCALENDAR"] from by
      simp [List.filter, fSum, fDs, fDe,
        (by decide : strBoolean "BEGIN:VCALENDAR" = true),
        (by decide : strBoolean "VERSION:2.0" = true),
        (by decide : strBoolean "BEGIN:VEVENT" = true),
        (by decide : strBoolean "" = false),
        (by decide : strBoolean "END:VEVENT" = true),
        (by decide : strBoolean "END:VCALENDAR" = true)]]
  apply congrArg
  simp only [joinCRLF]
  apply strDataExt
  simp only [strDataAppend, List.append_assoc]
  rfl

theorem createICS_eval_loc (fs : List (String × Json)) (t s e l : String)
    (ht : lookupField fs "event_title" = some (.str t)) (ht' : t ≠ "")
    (hs : lookupField fs "datetime_start" = some (.str s)) (hs' : s ≠ "")
    (he : lookupField fs "datetime_end" = some (.str e)) (he' : e ≠ "")
    (hl : lookupField fs "location" = some (.str l)) (hl' : l ≠ "") :
    createICSFile (.obj fs) =
      .ok ("BEGIN:VCALENDAR\r\nVERSION:2.0\r\nBEGIN:VEVENT\r\nSUMMARY:" ++ escapeString t ++
           "\r\nDTSTART:" ++ s ++ "\r\nDTEND:" ++ e ++ "\r\nLOCATION:" ++ escapeString l ++
           "\r\nEND:VEVENT\r\nEND:VCALENDAR") := by
  have ge : ∀ k : String, getFieldE (.obj fs) k = .ok (lookupField fs k) := fun k => rfl
  have htr1 := truthy_str_ne t ht'
  have htr2 := truthy_str_ne s hs'
  have htr3 := truthy_str_ne e he'
  have htr4 := truthy_str_ne l hl'
  simp only [createICSFile, ge, ht, hs, he, hl, htr1, htr2, htr3, htr4, Bool.not_true,
    Bool.false_or, Bool.or_false, Bool.or_self, if_false, Bool.false_eq_true, ite_false,
    escapeText, ite_true, jsToStrOpt, jsToString]
  have fSum : strBoolean ("SUMMARY:" ++ escapeString t) = true := strBoolean_append _ _ (by decide)
  have fDs : strBoolean ("DTSTART:" ++ s) = true := strBoolean_append _ _ (by decide)
  have fDe : strBoolean ("DTEND:" ++ e) = true := strBoolean_append _ _ (by decide)
  have fLoc : strBoolean ("LOCATION:" ++ escapeString l) = true :=
    strBoolean_append _ _ (by decide)
  rw [show List.filter strBoolean
        ["BEGIN:VCALENDAR", "VERSION:2.0", "BEGIN:VEVENT", "SUMMARY:" ++ escapeString t,
         "DTSTART:" ++ s, "DTEND:" ++ e, "LOCATION:" ++ escapeString l,
         "END:VEVENT", "END:VCALENDAR"] =
        ["BEGIN:VCALENDAR", "VERSION:2.0", "BEGIN:VEVENT", "SUMMARY:" ++ escapeString t,
         "DTSTART:" ++ s, "DTEND:" ++ e, "LOCATION:" ++ escapeString l,
         "END:VEVENT", "END:VCALENDAR"] from by
      simp [List.filter, fSum, fDs, fDe, fLoc,
        (by decide : strBoolean "BEGIN:VCALENDAR" = true),
        (by decide : strBoolean "VERSION:2.0" = true),
        (by decide : strBoolean "BEGIN:VEVENT" = true),
        (by decide : strBoolean "END:VEVENT" = true),
        (by decide : strBoolean "END:VCALENDAR" = true)]]
  apply congrArg
  simp only [joinCRLF]
  apply strDataExt
  simp only [strDataAppend, List.append_assoc]
  rfl

def teamSyncEvent : Json :=
  .obj [("event_title", .str "Team Sync"), ("datetime_start", .str "20250314T090000"),
        ("datetime_end", .str "20250314T100000"), ("location", .str "Room 5")]

def teamSyncDoc : String :=
  "BEGIN:VCALENDAR\r\nVERSION:2.0\r\nBEGIN:VEVENT\r\nSUMMARY:Team Sync\r\nDTSTART:20250314T090000\r\nDTEND:20250314T100000\r\nLOCATION:Room 5\r\nEND:VEVENT\r\nEND:VCALENDAR"

/-- Claim C1 counterexample: on the Team Sync record, createICSFile does not
    return the claimed string with a trailing CRLF; the trailing CRLF is only
    appended later, by sendResponse. -/
theorem createICS_trailing_crlf_cex :
    createICSFile teamSyncEvent ≠ .ok (teamSyncDoc ++ "\r\n") := by
  intro h
  exact absurd (Except.ok.inj h) (by decide)

/-- Claim C1 amended: on the Team Sync record, createICSFile returns exactly
    the claimed document without the final CRLF, lines joined by CRLF; the
    attached file produced by sendResponse (content trimmed, then one CRLF
    appended) is exactly the claimed string with the trailing CRLF. -/
theorem createICS_team_sync_document :
    createICSFile teamSyncEvent = .ok teamSyncDoc ∧
    sendResponseICS teamSyncDoc = teamSyncDoc ++ "\r\n" := by
  exact ⟨rfl, by decide⟩

/-- Claim C8: called on its own, createICSFile fails with the
    missing-required-event-data error whenever the title, start timestamp or
    end timestamp property is the empty string or missing, independently of
    whether the validator ran first. -/
theorem createICS_missing_required (fs : List (String × Json))
    (h : (lookupField fs "event_title" = none ∨ lookupField fs "event_title" = some (.str "")) ∨
         (lookupField fs "datetime_start" = none ∨
            lookupField fs "datetime_start" = some (.str "")) ∨
         (lookupField fs "datetime_end" = none ∨
            lookupField fs "datetime_end" = some (.str ""))) :
    createICSFile (.obj fs) = .error .missingEventData := by
  have ge : ∀ k : String, getFieldE (.obj fs) k = .ok (lookupField fs k) := fun k => rfl
  have hcond : (!truthy (lookupField fs "datetime_start") ||
                !truthy (lookupField fs "datetime_end") ||
                !truthy (lookupField fs "event_title")) = true := by
    rcases h with (h | h) | (h | h) | (h | h) <;> simp [h, truthy]
  simp only [createICSFile, ge, hcond, if_true]

/-- Claim C8 witness: an event record with an empty title is rejected by
    createICSFile alone. -/
theorem createICS_missing_required_witness :
    createICSFile (.obj [("event_title", .str ""), ("datetime_start", .str "20250314T090000"),
                         ("datetime_end", .str "20250314T100000")]) =
      .error .missingEventData :=
  createICS_missing_required _ (Or.inl (Or.inr rfl))

/-- Claim C10 (implicit): the generator is total in the location value.  The
    escapeText closure maps every falsy argument to the empty string, and for
    every falsy location value (absent or present-but-falsy) the generated
    document simply omits the LOCATION line, with no error raised. -/
theorem createICS_location_total :
    (∀ v : Option Json, truthy v = false → escapeText v = .ok "") ∧
    (∀ t s e : String, t ≠ "" → s ≠ "" → e ≠ "" →
      ∀ v : Json, truthy (some v) = false →
        createICSFile (.obj [("event_title", .str t), ("datetime_start", .str s),
                             ("datetime_end", .str e), ("location", v)]) =
          .ok ("BEGIN:VCALENDAR\r\nVERSION:2.0\r\nBEGIN:VEVENT\r\nSUMMARY:" ++ escapeString t ++
               "\r\nDTSTART:" ++ s ++ "\r\nDTEND:" ++ e ++ "\r\nEND:VEVENT\r\nEND:VCALENDAR") ∧
        createICSFile (.obj [("event_title", .str t), ("datetime_start", .str s),
                             ("datetime_end", .str e)]) =
          .ok ("BEGIN:VCALENDAR\r\nVERSION:2.0\r\nBEGIN:VEVENT\r\nSUMMARY:" ++ escapeString t ++
               "\r\nDTSTART:" ++ s ++ "\r\nDTEND:" ++ e ++ "\r\nEND:VEVENT\r\nEND:VCALENDAR")) := by
  constructor
  · intro v hv
    simp [escapeText, hv]
  · intro t s e ht hs he v hv
    constructor
    · exact createICS_eval_noloc _ t s e rfl ht rfl hs rfl he (by simpa using hv)
    · exact createICS_eval_noloc _ t s e rfl ht rfl hs rfl he (by simp [lookupField, truthy])

/-- Claim C10 witness: a null location and an absent location both yield the
    document without a LOCATION line, and escapeText maps undefined to the
    empty string. -/
theorem createICS_location_total_witness :
    escapeText none = .ok "" ∧
    createICSFile (.obj [("event_title", .str "T"), ("datetime_start", .str "S"),
                         ("datetime_end", .str "E"), ("location", .null)]) =
      .ok ("BEGIN:VCALENDAR\r\nVERSION:2.0\r\nBEGIN:VEVENT\r\nSUMMARY:" ++ escapeString "T" ++
           "\r\nDTSTART:" ++ "S" ++ "\r\nDTEND:" ++ "E" ++ "\r\nEND:VEVENT\r\nEND:VCALENDAR") :=
  ⟨createICS_location_total.1 none rfl,
   (createICS_location_total.2 "T" "S" "E" (by decide) (by decide) (by decide) .null rfl).1⟩

def rawNoLocation : String :=
  "\x7b\"event_title\": \"Team Sync\", \"datetime_start\": \"20250314T090000\", \"datetime_end\": \"20250314T100000\"\x7d"

/-- Claim C5 counterexample: on a valid response lacking location, validation
    returns the parsed object unchanged, and in that object the location
    property is absent (undefined), not equal to the empty string. -/
theorem location_default_cex :
    validateExtraction rawNoLocation =
      .ok (.obj [("event_title", .str "Team Sync"),
                 ("datetime_start", .str "20250314T090000"),
                 ("datetime_end", .str "20250314T100000")]) ∧
    lookupField [("event_title", Json.str "Team Sync"),
                 ("datetime_start", Json.str "20250314T090000"),
                 ("datetime_end", Json.str "20250314T100000")] "location" ≠
      some (.str "") :=
  ⟨rfl, fun h => Option.noConfusion h⟩

/-- Claim C5 amended: a valid JSON response with the three required fields
    non-empty and no location field validates to the parsed record in which
    location stays absent (undefined, falsy, treated downstream exactly like
    the empty string), and the generated document omits the LOCATION line
    entirely. -/
theorem location_absent_omits_line (raw : String) (fs : List (String × Json)) (t s e : String)
    (hparse : parseJson raw = some (.obj fs))
    (hnoloc : lookupField fs "location" = none)
    (ht : lookupField fs "event_title" = some (.str t)) (ht' : t ≠ "")
    (hs : lookupField fs "datetime_start" = some (.str s)) (hs' : s ≠ "")
    (he : lookupField fs "datetime_end" = some (.str e)) (he' : e ≠ "") :
    validateExtraction raw = .ok (.obj fs) ∧
    createICSFile (.obj fs) =
      .ok ("BEGIN:VCALENDAR\r\nVERSION:2.0\r\nBEGIN:VEVENT\r\nSUMMARY:" ++ escapeString t ++
           "\r\nDTSTART:" ++ s ++ "\r\nDTEND:" ++ e ++ "\r\nEND:VEVENT\r\nEND:VCALENDAR") := by
  constructor
  · exact validate_ok raw fs hparse
      (by rw [ht]; exact truthy_str_ne t ht')
      (by rw [hs]; exact truthy_str_ne s hs')
      (by rw [he]; exact truthy_str_ne e he')
  · exact createICS_eval_noloc fs t s e ht ht' hs hs' he he' (by rw [hnoloc]; rfl)

/-- Claim C5 amended witness at the concrete Team Sync response without a
    location field. -/
theorem location_absent_omits_line_witness :
    validateExtraction rawNoLocation =
      .ok (.obj [("event_title", .str "Team Sync"),
                 ("datetime_start", .str "20250314T090000"),
                 ("datetime_end", .str "20250314T100000")]) ∧
    createICSFile (.obj [("event_title", .str "Team Sync"),
                         ("datetime_start", .str "20250314T090000"),
                         ("datetime_end", .str "20250314T100000")]) =
      .ok ("BEGIN:VCALENDAR\r\nVERSION:2.0\r\nBEGIN:VEVENT\r\nSUMMARY:" ++
           escapeString "Team Sync" ++ "\r\nDTSTART:" ++ "20250314T090000" ++
           "\r\nDTEND:" ++ "20250314T100000" ++ "\r\nEND:VEVENT\r\nEND:VCALENDAR") :=
  location_absent_omits_line rawNoLocation _ "Team Sync" "20250314T090000" "20250314T100000"
    rfl rfl rfl (by decide) rfl (by decide) rfl (by decide)

/-- Claim C6: every record accepted by validation has its start and end
    timestamp strings copied verbatim into the DTSTART and DTEND lines, and no
    check against the advertised 14-digit pattern exists anywhere in the
    pipeline: validation and generation accept arbitrary non-empty strings for
    datetime_start and datetime_end. -/
theorem timestamps_verbatim_unvalidated (raw : String) (fs : List (String × Json))
    (t s e : String)
    (hparse : parseJson raw = some (.obj fs))
    (ht : lookupField fs "event_title" = some (.str t)) (ht' : t ≠ "")
    (hs : lookupField fs "datetime_start" = some (.str s)) (hs' : s ≠ "")
    (he : lookupField fs "datetime_end" = some (.str e)) (he' : e ≠ "")
    (hloc : lookupField fs "location" = none ∨
            ∃ l : String, lookupField fs "location" = some (.str l)) :
    validateExtraction raw = .ok (.obj fs) ∧
    ∃ before after : String,
      createICSFile (.obj fs) =
        .ok (before ++ ("DTSTART:" ++ s ++ "\r\nDTEND:" ++ e) ++ after) := by
  constructor
  · exact validate_ok raw fs hparse
      (by rw [ht]; exact truthy_str_ne t ht')
      (by rw [hs]; exact truthy_str_ne s hs')
      (by rw [he]; exact truthy_str_ne e he')
  · have hAssocNoLoc :
        "BEGIN:VCALENDAR\r\nVERSION:2.0\r\nBEGIN:VEVENT\r\nSUMMARY:" ++ escapeString t ++
          "\r\nDTSTART:" ++ s ++ "\r\nDTEND:" ++ e ++ "\r\nEND:VEVENT\r\nEND:VCALENDAR" =
        ("BEGIN:VCALENDAR\r\nVERSION:2.0\r\nBEGIN:VEVENT\r\nSUMMARY:" ++ escapeString t ++
          "\r\n") ++ ("DTSTART:" ++ s ++ "\r\nDTEND:" ++ e) ++
          "\r\nEND:VEVENT\r\nEND:VCALENDAR" := by
      apply strDataExt
      simp only [strDataAppend, List.append_assoc]
      rfl
    rcases hloc with hnone | ⟨l, hl⟩
    · refine ⟨"BEGIN:VCALENDAR\r\nVERSION:2.0\r\nBEGIN:VEVENT\r\nSUMMARY:" ++ escapeString t ++
        "\r\n", "\r\nEND:VEVENT\r\nEND:VCALENDAR", ?_⟩
      rw [createICS_eval_noloc fs t s e ht ht' hs hs' he he' (by rw [hnone]; rfl), hAssocNoLoc]
    · by_cases hl' : l = ""
      · subst hl'
        refine ⟨"BEGIN:VCALENDAR\r\nVERSION:2.0\r\nBEGIN:VEVENT\r\nSUMMARY:" ++ escapeString t ++
          "\r\n", "\r\nEND:VEVENT\r\nEND:VCALENDAR", ?_⟩
        rw [createICS_eval_noloc fs t s e ht ht' hs hs' he he' (by rw [hl]; rfl), hAssocNoLoc]
      · refine ⟨"BEGIN:VCALENDAR\r\nVERSION:2.0\r\nBEGIN:VEVENT\r\nSUMMARY:" ++ escapeString t ++
          "\r\n", "\r\nLOCATION:" ++ escapeString l ++ "\r\nEND:VEVENT\r\nEND:VCALENDAR", ?_⟩
        rw [createICS_eval_loc fs t s e l ht ht' hs hs' he he' hl hl']
        apply congrArg
        apply strDataExt
        simp only [strDataAppend, List.append_assoc]
        rfl

/-- Claim C6 witness: strings that do not resemble the advertised timestamp
    pattern pass validation and are copied verbatim into the document. -/
theorem timestamps_verbatim_unvalidated_witness :
    validateExtraction
      "\x7b\"event_title\": \"X\", \"datetime_start\": \"not-a-date\", \"datetime_end\": \"whenever\"\x7d" =
      .ok (.obj [("event_title", .str "X"), ("datetime_start", .str "not-a-date"),
                 ("datetime_end", .str "whenever")]) ∧
    ∃ before after : String,
      createICSFile (.obj [("event_title", .str "X"), ("datetime_start", .str "not-a-date"),
                           ("datetime_end", .str "whenever")]) =
        .ok (before ++ ("DTSTART:" ++ "not-a-date" ++ "\r\nDTEND:" ++ "whenever") ++ after) :=
  timestamps_verbatim_unvalidated _ _ "X" "not-a-date" "whenever"
    rfl rfl (by decide) rfl (by decide) rfl (by decide) (Or.inl rfl)

/- Claim C7 machinery: the ten digit characters, and the day-suffix rule in
   the arithmetic form the specification states it. -/

def digitChars : List Char := ['0','1','2','3','4','5','6','7','8','9']

def charDigitVal (c : Char) : Nat := c.toNat - 48

/-- The day-of-month suffix rule as the specification states it: st for days
    ending in 1 except 11, nd for 2 except 12, rd for 3 except 13, th
    otherwise. -/
def daySuffixSpec (d : Nat) : String :=
  if d % 10 = 1 ∧ d ≠ 11 then "st"
  else if d % 10 = 2 ∧ d ≠ 12 then "nd"
  else if d % 10 = 3 ∧ d ≠ 13 then "rd"
  else "th"

theorem digit_char_facts (c : Char) (h : c ∈ digitChars) :
    c.isDigit = true ∧ isJsonWs c = false ∧ c ≠ '-' ∧ c ≠ '+' := by
  fin_cases h <;> exact ⟨rfl, rfl, by decide, by decide⟩

theorem parseIntJs_two_digits (a b : Char) (ha : a ∈ digitChars) (hb : b ∈ digitChars) :
    parseIntJs (String.mk [a, b]) =
      some ((10 * charDigitVal a + charDigitVal b : Nat) : Int) := by
  obtain ⟨hda, hwa, hma, hpa⟩ := digit_char_facts a ha
  obtain ⟨hdb, hwb, hmb, hpb⟩ := digit_char_facts b hb
  have h1 : skipWs [a, b] = [a, b] := by simp [skipWs, hwa]
  simp [parseIntJs, h1, hma, hpa, digitsPrefixVal, List.takeWhile, hda, hdb,
    digitsToNat, charDigitVal]
  omega

theorem code_suffix_eq_spec (n : Nat) :
    (if (n : Int).tmod 10 = 1 ∧ (n : Int) ≠ 11 then "st"
     else if (n : Int).tmod 10 = 2 ∧ (n : Int) ≠ 12 then "nd"
     else if (n : Int).tmod 10 = 3 ∧ (n : Int) ≠ 13 then "rd"
     else "th") = daySuffixSpec n := by
  have ht : (n : Int).tmod 10 = ((n % 10 : Nat) : Int) := rfl
  simp only [daySuffixSpec, ht]
  norm_cast

theorem formatDate_general (y1 y2 y3 y4 m1 m2 d1 d2 h1 h2 n1 n2 s1 s2 : Char)
    (hm1 : m1 ∈ digitChars) (hm2 : m2 ∈ digitChars)
    (hd1 : d1 ∈ digitChars) (hd2 : d2 ∈ digitChars)
    (hmlo : 1 ≤ 10 * charDigitVal m1 + charDigitVal m2)
    (hmhi : 10 * charDigitVal m1 + charDigitVal m2 ≤ 12) :
    formatDate (String.mk [y1, y2, y3, y4, m1, m2, d1, d2, 'T', h1, h2, n1, n2, s1, s2]) =
      toString (10 * charDigitVal d1 + charDigitVal d2) ++
      daySuffixSpec (10 * charDigitVal d1 + charDigitVal d2) ++ " " ++
      monthNames.getD (10 * charDigitVal m1 + charDigitVal m2 - 1) "undefined" ++ " " ++
      String.mk [y1, y2, y3, y4] := by
  have hd := parseIntJs_two_digits d1 d2 hd1 hd2
  have hm := parseIntJs_two_digits m1 m2 hm1 hm2
  have hsl6 : sliceStr (String.mk [y1, y2, y3, y4, m1, m2, d1, d2, 'T', h1, h2, n1, n2, s1, s2])
      6 8 = String.mk [d1, d2] := rfl
  have hsl4 : sliceStr (String.mk [y1, y2, y3, y4, m1, m2, d1, d2, 'T', h1, h2, n1, n2, s1, s2])
      4 6 = String.mk [m1, m2] := rfl
  have hsl0 : sliceStr (String.mk [y1, y2, y3, y4, m1, m2, d1, d2, 'T', h1, h2, n1, n2, s1, s2])
      0 4 = String.mk [y1, y2, y3, y4] := rfl
  have hmonth : (1 ≤ ((10 * charDigitVal m1 + charDigitVal m2 : Nat) : Int) ∧
      ((10 * charDigitVal m1 + charDigitVal m2 : Nat) : Int) ≤ 12) := by
    constructor <;> exact_mod_cast (by omega)
  have hidx : (((10 * charDigitVal m1 + charDigitVal m2 : Nat) : Int) - 1).toNat =
      10 * charDigitVal m1 + charDigitVal m2 - 1 := by omega
  simp only [formatDate, hsl6, hsl4, hsl0, hd, hm, code_suffix_eq_spec, if_pos hmonth, hidx]
  rfl

/-- Claim C7: on every 14-digit timestamp (month in the January-December
    range), formatDate returns the day number, then the suffix given by the
    st/nd/rd/th rule with the 11/12/13 exceptions, then the full month name
    and the four-digit year; formatTime returns the hour and minute digits
    joined by a colon; and the three concrete examples of the specification
    hold. -/
theorem formatDate_formatTime_spec :
    (∀ y1 y2 y3 y4 m1 m2 d1 d2 h1 h2 n1 n2 s1 s2 : Char,
       m1 ∈ digitChars → m2 ∈ digitChars → d1 ∈ digitChars → d2 ∈ digitChars →
       1 ≤ 10 * charDigitVal m1 + charDigitVal m2 →
       10 * charDigitVal m1 + charDigitVal m2 ≤ 12 →
       formatDate (String.mk [y1, y2, y3, y4, m1, m2, d1, d2, 'T', h1, h2, n1, n2, s1, s2]) =
         toString (10 * charDigitVal d1 + charDigitVal d2) ++
         daySuffixSpec (10 * charDigitVal d1 + charDigitVal d2) ++ " " ++
         monthNames.getD (10 * charDigitVal m1 + charDigitVal m2 - 1) "undefined" ++ " " ++
         String.mk [y1, y2, y3, y4] ∧
       formatTime (String.mk [y1, y2, y3, y4, m1, m2, d1, d2, 'T', h1, h2, n1, n2, s1, s2]) =
         String.mk [h1, h2] ++ ":" ++ String.mk [n1, n2]) ∧
    formatDate "20250301T000000" = "1st March 2025" ∧
    formatDate "20250311T000000" = "11th March 2025" ∧
    formatTime "20250301T134500" = "13:45" := by
  refine ⟨?_, by decide, by decide, by decide⟩
  intro y1 y2 y3 y4 m1 m2 d1 d2 h1 h2 n1 n2 s1 s2 hm1 hm2 hd1 hd2 hmlo hmhi
  exact ⟨formatDate_general y1 y2 y3 y4 m1 m2 d1 d2 h1 h2 n1 n2 s1 s2
    hm1 hm2 hd1 hd2 hmlo hmhi, rfl⟩

/-- Claim C7 witness at the timestamp 20250314T090000. -/
theorem formatDate_formatTime_spec_witness :
    formatDate "20250314T090000" = "14th March 2025" ∧
    formatTime "20250314T090000" = "09:00" := by
  have h := formatDate_formatTime_spec.1 '2' '0' '2' '5' '0' '3' '1' '4' '0' '9' '0' '0' '0' '0'
    (by decide) (by decide) (by decide) (by decide) (by decide) (by decide)
  exact ⟨h.1.trans (by decide), h.2.trans (by decide)⟩
